import Mathlib

/-
Verification of the channel-resolution / thumbnail-aggregation pipeline and the
creative-suggestion pipeline of the YouTubePrewiew repository.

The Python sources (src/app/services/youtube_client.py and
src/app/services/gemini_client.py) are shallowly embedded below.  Network I/O
is made explicit: every place where the Python code would issue an HTTP call is
represented either by a dedicated constructor of an outcome type (so "no
network call was issued" is visible in the result) or by a caller-supplied
behaviour parameter (so theorems quantify over every possible behaviour of the
external service).  Python floats are modelled as rationals; `re.search` over
the two concrete patterns of the source is modelled by explicit left-to-right
scans over the character list, restricted to the ASCII word characters that the
patterns and all inputs of interest use.
-/

namespace App

/-! ## Channel resolver (src/app/services/youtube_client.py) -/

/-- A character of the class `[\w-]` used in the channel-id pattern
`UC[\w-]{22}` (ASCII word characters or a hyphen). -/
def isIdChar (c : Char) : Bool :=
  c.isAlphanum || c = '_' || c = '-'

/-- A 24-character token `UC` followed by 22 characters of `[\w-]` — exactly
the strings matched by the pattern `UC[\w-]{22}` of `_extract_channel_id`. -/
def isChannelIdToken (m : List Char) : Bool :=
  match m with
  | c1 :: c2 :: body => c1 = 'U' && c2 = 'C' && body.length = 22 && body.all isIdChar
  | _ => false

/-- Does the pattern `UC[\w-]{22}` match at the very front of `l`?  Returns the
matched 24-character token. -/
def channelIdAt (l : List Char) : Option (List Char) :=
  match l with
  | c1 :: c2 :: rest =>
      if c1 = 'U' ∧ c2 = 'C' ∧ (rest.take 22).length = 22 ∧ (rest.take 22).all isIdChar = true then
        some (c1 :: c2 :: rest.take 22)
      else none
  | _ => none

/-- `re.search(r"(UC[\w-]{22})", url)`: scan left to right, return the leftmost
match of the channel-id pattern. -/
def searchChannelId : List Char → Option (List Char)
  | [] => none
  | c :: rest =>
      match channelIdAt (c :: rest) with
      | some cid => some cid
      | none => searchChannelId rest

/-- A character of the class `[A-Za-z0-9._-]` used in the handle pattern. -/
def isHandleChar (c : Char) : Bool :=
  c.isAlphanum || c = '.' || c = '_' || c = '-'

/-- `re.search(r"@([A-Za-z0-9._-]+)", value)`: leftmost `@` followed by at
least one handle character; the captured group is the maximal run. -/
def searchHandle : List Char → Option (List Char)
  | [] => none
  | c :: rest =>
      if c = '@' ∧ rest.takeWhile isHandleChar ≠ [] then some (rest.takeWhile isHandleChar)
      else searchHandle rest

/-- Python's `str.startswith`, as a structural scan over the character list. -/
def pyStartsWith (s pre : String) : Bool :=
  pre.toList.isPrefixOf s.toList

/-- `YouTubeClient._extract_channel_id`: first the regex search, then the
`url.startswith("UC") and len(url) >= 24` fallback returning the whole input. -/
def extract_channel_id (url : String) : Option String :=
  match searchChannelId url.toList with
  | some cid => some (String.mk cid)
  | none =>
      if pyStartsWith url "UC" = true ∧ 24 ≤ url.length then some url else none

/-- `YouTubeClient._extract_handle`: the regex search, then the
`value.startswith("@")` fallback returning `value.lstrip("@")` (which may be
the empty — Python-falsy — string). -/
def extract_handle (value : String) : Option String :=
  match searchHandle value.toList with
  | some h => some (String.mk h)
  | none =>
      if pyStartsWith value "@" = true then
        some (String.mk (value.toList.dropWhile (fun c => c = '@')))
      else none

/-- Python truthiness of the optional `api_key` string. -/
def keyTruthy : Option String → Bool
  | none => false
  | some s => !s.toList.isEmpty

/-- Outcome of `YouTubeClient._resolve_channel_identifier`.  `direct` means the
identifier was returned before any network access; `searchByHandle` is the one
place where the method would issue a network (search) call; `configError` is
the `ValueError` raised when a handle is present but no API key is configured;
`unrecognized` is the `None` return (which `fetch_thumbnails` turns into a
format error). -/
inductive ResolveOutcome where
  | direct (channelId : String)
  | configError
  | searchByHandle (handle : String)
  | unrecognized
  deriving DecidableEq

/-- `YouTubeClient._resolve_channel_identifier`, with the network boundary made
explicit as the `searchByHandle` outcome. -/
def resolve_channel_identifier (apiKey : Option String) (value : String) : ResolveOutcome :=
  match extract_channel_id value with
  | some cid => ResolveOutcome.direct cid
  | none =>
      match extract_handle value with
      | some h =>
          if h = "" then ResolveOutcome.unrecognized
          else if keyTruthy apiKey then ResolveOutcome.searchByHandle h
          else ResolveOutcome.configError
      | none => ResolveOutcome.unrecognized

/-! ## Thumbnail scorer (`YouTubeClient._build_thumbnail_info`) -/

/-- The `snippet.thumbnails` mapping of a raw video record.  Each present tier
is modelled by the url string of its (non-empty, hence Python-truthy) entry
object; the source reads only the `url` field of the selected entry. -/
structure Thumbnails where
  maxres : Option String
  standard : Option String
  high : Option String
  default : Option String

/-- The `snippet` object of a raw video record; an absent snippet behaves as
one whose fields are all absent (`item.get("snippet", {})`). -/
structure Snippet where
  title : Option String
  description : Option String
  thumbnails : Thumbnails

/-- The `statistics` object of a raw video record.  Counters are rationals
(Python floats); `stats.get(..., 0)` substitutes 0 for an absent field. -/
structure Statistics where
  viewCount : Option ℚ
  likeCount : Option ℚ
  commentCount : Option ℚ

/-- A raw per-video record as consumed by `_build_thumbnail_info`. -/
structure VideoItem where
  id : Option String
  snippet : Snippet
  statistics : Statistics

/-- The normalized output entity of the scorer (dataclass `ThumbnailInfo`). -/
structure ThumbnailInfo where
  video_id : Option String
  title : String
  description : String
  thumbnail_url : String
  ctr_score : ℚ

/-- The `or`-chain
`thumbnails.get("maxres") or ... or thumbnails.get("default")`: the first
present tier wins (a present entry object is always truthy in Python). -/
def best_thumb (t : Thumbnails) : Option String :=
  match t.maxres with
  | some u => some u
  | none =>
      match t.standard with
      | some u => some u
      | none =>
          match t.high with
          | some u => some u
          | none => t.default

/-- Python's `round` to an integer: round half to even. -/
def roundHalfEven (q : ℚ) : ℤ :=
  if q - ⌊q⌋ < 1/2 then ⌊q⌋
  else if 1/2 < q - ⌊q⌋ then ⌊q⌋ + 1
  else if ⌊q⌋ % 2 = 0 then ⌊q⌋ else ⌊q⌋ + 1

/-- Python's `round(x, 2)`: round half to even at two decimal places. -/
def round2 (q : ℚ) : ℚ :=
  (roundHalfEven (q * 100) : ℚ) / 100

/-- `YouTubeClient._build_thumbnail_info`. -/
def build_thumbnail_info (item : VideoItem) : ThumbnailInfo :=
  let thumb_url := (best_thumb item.snippet.thumbnails).getD ""
  let views := item.statistics.viewCount.getD 0
  let likes := item.statistics.likeCount.getD 0
  let comments := item.statistics.commentCount.getD 0
  let ctr_score := round2 (min 100 ((likes + comments * 0.5) / max views 1 * 1200))
  { video_id := item.id
    title := item.snippet.title.getD "Без названия"
    description := item.snippet.description.getD ""
    thumbnail_url := thumb_url
    ctr_score := ctr_score }

/-- The score formula exactly as the specification writes it:
`round(min(100, (likes + 0.5 * comments) / max(views, 1) * 1200), 2)`. -/
def ctr_score_spec (views likes comments : ℚ) : ℚ :=
  round2 (min 100 ((likes + 0.5 * comments) / max views 1 * 1200))

/-! ## Video aggregator (`YouTubeClient._get_latest_videos`) -/

/-- Result of one HTTP call: either a decoded payload or the exception raised
by `raise_for_status` / the transport layer. -/
inductive HttpResult (α : Type) where
  | ok (value : α)
  | httpError

/-- One playlist item; the nested access
`item["snippet"]["resourceId"]["videoId"]` is collapsed to the video id it
extracts. -/
structure PlaylistItem where
  videoId : String

/-- `YouTubeClient._get_latest_videos` after the playlist-items response:
collect the video ids, return `[]` on an empty playlist, otherwise issue the
single batched statistics call with the comma-joined ids.  The statistics call
is a behaviour parameter, so a result independent of it means the call was not
issued. -/
def get_latest_videos (playlistCall : HttpResult (List PlaylistItem))
    (statsCall : String → HttpResult (List VideoItem)) : HttpResult (List VideoItem) :=
  match playlistCall with
  | HttpResult.httpError => HttpResult.httpError
  | HttpResult.ok items =>
      let video_ids := items.map PlaylistItem.videoId
      if video_ids.isEmpty then HttpResult.ok []
      else
        match statsCall (String.intercalate "," video_ids) with
        | HttpResult.httpError => HttpResult.httpError
        | HttpResult.ok stats => HttpResult.ok stats

/-! ## Creative-suggestion engine (src/app/services/gemini_client.py) -/

/-- Python `str.strip()` (whitespace removed from both ends). -/
def pyStrip (s : String) : String :=
  String.mk (((s.toList.dropWhile Char.isWhitespace).reverse.dropWhile Char.isWhitespace).reverse)

/-- The base64 alphabet. -/
def base64Chars : List Char :=
  "ABCDEFGHIJKLMNOPQRSTUVWXYZabcdefghijklmnopqrstuvwxyz0123456789+/".toList

/-- Digit lookup for `base64Encode`. -/
def b64Char (n : Nat) : Char :=
  base64Chars.getD n '='

/-- `base64.b64encode` over a byte list. -/
def base64Encode : List Nat → List Char
  | [] => []
  | [b1] =>
      [b64Char (b1 % 256 / 4), b64Char (b1 % 256 % 4 * 16), '=', '=']
  | [b1, b2] =>
      [b64Char (b1 % 256 / 4), b64Char (b1 % 256 % 4 * 16 + b2 % 256 / 16),
        b64Char (b2 % 256 % 16 * 4), '=']
  | b1 :: b2 :: b3 :: rest =>
      b64Char (b1 % 256 / 4) :: b64Char (b1 % 256 % 4 * 16 + b2 % 256 / 16) ::
        b64Char (b2 % 256 % 16 * 4 + b3 % 256 / 64) :: b64Char (b3 % 256 % 64) ::
        base64Encode rest

/-- `GeminiClient._image_to_data_url`. -/
def image_to_data_url (imageBytes : List Nat) : String :=
  "data:image/png;base64," ++ String.mk (base64Encode imageBytes)

/-- `GeminiClient._placeholder_image`.  The PIL canvas (word-wrapped title
drawn on a 1280×720 dark background, saved as PNG) is produced by the external
imaging library; its byte output is the caller-supplied `render` function.
Whatever those bytes are, the result is the self-describing data url built
from them. -/
def placeholder_image (render : String → List Nat) (text : String) : String :=
  "data:image/png;base64," ++ String.mk (base64Encode (render text))

/-- Behaviour of the external text-generation call
(`model.generate_content(...).text`): it either produces a text or raises. -/
inductive TextBehavior where
  | returns (text : String)
  | raises

/-- Behaviour of the external image-generation call: it either produces a
(possibly empty) list of image byte payloads or raises. -/
inductive ImageBehavior where
  | returns (images : List (List Nat))
  | raises

/-- The dataclass `GeminiResult`. -/
structure GeminiResult where
  prompt : String
  idea : String
  image_data_url : Option String

/-- `GeminiClient.propose_new_thumbnail`.  `genaiAvailable` models whether the
optional `google.generativeai` import succeeded; `textGen` and `imageGen` are
the behaviours of the two external generation calls.  `Except.error` is an
exception propagating out of the method. -/
def propose_new_thumbnail (apiKey : Option String) (genaiAvailable : Bool)
    (render : String → List Nat) (textGen : TextBehavior) (imageGen : ImageBehavior)
    (title description : String) (original : Option String) : Except Unit GeminiResult :=
  let content_prompt :=
    "Заголовок: " ++ title ++ "\nОписание: " ++ String.mk (description.toList.take 500) ++
      "\nТекущее превью: " ++
      (match original with
        | some o => if o = "" then "нет ссылки" else o
        | none => "нет ссылки")
  let idea0 :=
    if keyTruthy apiKey = false then
      "Используйте GEMINI_API_KEY, чтобы получить идеи на основе контента."
    else ""
  let data0 := placeholder_image render title
  if keyTruthy apiKey && genaiAvailable then
    match textGen with
    | TextBehavior.raises => Except.error ()
    | TextBehavior.returns t =>
        let finalData :=
          match imageGen with
          | ImageBehavior.raises => data0
          | ImageBehavior.returns imgs =>
              match imgs with
              | [] => data0
              | img :: _ => image_to_data_url img
        Except.ok { prompt := content_prompt, idea := pyStrip t, image_data_url := some finalData }
  else
    Except.ok { prompt := content_prompt, idea := idea0, image_data_url := some data0 }

/-! ## Concrete records used by examples, witnesses and counterexamples -/

/-- The end-to-end example record of the specification:
`viewCount=1000, likeCount=50, commentCount=20`. -/
def exampleRecord : VideoItem :=
  { id := some "vid1"
    snippet :=
      { title := some "Видео"
        description := some "Описание"
        thumbnails :=
          { maxres := some "https://i.ytimg.com/vi/vid1/maxresdefault.jpg"
            standard := none, high := none, default := none } }
    statistics := { viewCount := some 1000, likeCount := some 50, commentCount := some 20 } }

/-- A record with zero views used to witness the score bounds. -/
def claim2Record : VideoItem :=
  { id := some "vid2"
    snippet :=
      { title := none, description := none
        thumbnails := { maxres := none, standard := none, high := none, default := none } }
    statistics := { viewCount := some 0, likeCount := some 5, commentCount := some 3 } }

/-- A record offering only the `high` thumbnail tier. -/
def claim7Record : VideoItem :=
  { id := some "vid3"
    snippet :=
      { title := some "t", description := some "d"
        thumbnails :=
          { maxres := none, standard := none
            high := some "https://i.ytimg.com/vi/vid3/hq720.jpg", default := none } }
    statistics := { viewCount := some 10, likeCount := some 1, commentCount := some 0 } }

/-- A record whose only present tier carries an empty url string. -/
def claim7EmptyUrlRecord : VideoItem :=
  { id := some "vid4"
    snippet :=
      { title := some "t", description := some "d"
        thumbnails := { maxres := some "", standard := none, high := none, default := none } }
    statistics := { viewCount := some 10, likeCount := some 1, commentCount := some 0 } }

/-! ## Helper lemmas about the channel-id scan -/

theorem channelIdAt_sound {l cid : List Char} (h : channelIdAt l = some cid) :
    isChannelIdToken cid = true ∧ ∃ l₂, l = cid ++ l₂ := by
  match l with
  | [] => simp [channelIdAt] at h
  | [c] => simp [channelIdAt] at h
  | c1 :: c2 :: rest =>
      simp only [channelIdAt] at h
      split_ifs at h with hcond
      · obtain ⟨h1, h2, h3, h4⟩ := hcond
        obtain rfl : c1 :: c2 :: rest.take 22 = cid := by
          simpa using h
        subst h1; subst h2
        refine ⟨by simp [isChannelIdToken, h3, h4], rest.drop 22, ?_⟩
        simp [List.take_append_drop]

theorem searchChannelId_sound {l cid : List Char} (h : searchChannelId l = some cid) :
    isChannelIdToken cid = true ∧ ∃ l₁ l₂, l = l₁ ++ cid ++ l₂ := by
  induction l with
  | nil => simp [searchChannelId] at h
  | cons c rest ih =>
      rw [searchChannelId] at h
      cases hc : channelIdAt (c :: rest) with
      | some cid' =>
          rw [hc] at h
          obtain rfl : cid' = cid := by simpa using h
          obtain ⟨htok, l₂, heq⟩ := channelIdAt_sound hc
          exact ⟨htok, [], l₂, by simpa using heq⟩
      | none =>
          rw [hc] at h
          obtain ⟨htok, l₁, l₂, heq⟩ := ih h
          exact ⟨htok, c :: l₁, l₂, by simp [heq]⟩

theorem searchChannelId_complete (l₁ m l₂ : List Char) (hm : isChannelIdToken m = true) :
    (searchChannelId (l₁ ++ m ++ l₂)).isSome = true := by
  induction l₁ with
  | nil =>
      match m, hm with
      | c1 :: c2 :: body, hm =>
          simp only [isChannelIdToken, Bool.and_eq_true, decide_eq_true_eq] at hm
          obtain ⟨⟨⟨h1, h2⟩, h3⟩, h4⟩ := hm
          subst h1; subst h2
          have htake : (body ++ l₂).take 22 = body := List.take_left' h3
          have hc : channelIdAt ('U' :: 'C' :: (body ++ l₂)) = some ('U' :: 'C' :: body) := by
            simp [channelIdAt, htake, h3, h4]
          simp only [List.nil_append, List.cons_append, List.append_assoc]
          rw [searchChannelId]
          simp only [List.cons_append] at hc
          rw [hc]
          rfl
  | cons c l₁' ih =>
      have : (c :: l₁') ++ m ++ l₂ = c :: (l₁' ++ m ++ l₂) := by simp
      rw [this, searchChannelId]
      cases hc : channelIdAt (c :: (l₁' ++ m ++ l₂)) with
      | some cid => rfl
      | none => exact ih

theorem searchChannelId_eq_none {l : List Char}
    (h : ¬ ∃ l₁ m l₂, l = l₁ ++ m ++ l₂ ∧ isChannelIdToken m = true) :
    searchChannelId l = none := by
  cases hs : searchChannelId l with
  | none => rfl
  | some cid =>
      obtain ⟨htok, l₁, l₂, heq⟩ := searchChannelId_sound hs
      exact absurd ⟨l₁, cid, l₂, heq, htok⟩ h

/-! ## Helper lemmas about rounding -/

theorem roundHalfEven_nonneg {q : ℚ} (h : 0 ≤ q) : 0 ≤ roundHalfEven q := by
  have hf : 0 ≤ ⌊q⌋ := Int.floor_nonneg.mpr h
  unfold roundHalfEven
  split_ifs <;> omega

theorem roundHalfEven_le {q : ℚ} {B : ℤ} (h : q ≤ B) : roundHalfEven q ≤ B := by
  have hf : ⌊q⌋ ≤ B := by
    have := Int.floor_le_floor h
    rwa [Int.floor_intCast] at this
  have hfq : (⌊q⌋ : ℚ) ≤ q := Int.floor_le q
  unfold roundHalfEven
  split_ifs with h1 h2 h3
  · exact hf
  · have hlt : (⌊q⌋ : ℚ) < (B : ℚ) := by
      have : (⌊q⌋ : ℚ) < q - 1/2 := by linarith
      linarith
    have : ⌊q⌋ < B := by exact_mod_cast hlt
    omega
  · exact hf
  · have h12 : q - ⌊q⌋ = 1/2 := le_antisymm (not_lt.mp h2) (not_lt.mp h1)
    have hlt : (⌊q⌋ : ℚ) < (B : ℚ) := by
      have : (⌊q⌋ : ℚ) = q - 1/2 := by linarith
      linarith
    have : ⌊q⌋ < B := by exact_mod_cast hlt
    omega

theorem roundHalfEven_intCast (n : ℤ) : roundHalfEven (n : ℚ) = n := by
  unfold roundHalfEven
  rw [Int.floor_intCast, sub_self, if_pos (by norm_num : (0:ℚ) < 1/2)]

theorem round2_nonneg {q : ℚ} (h : 0 ≤ q) : 0 ≤ round2 q := by
  unfold round2
  have : (0 : ℚ) ≤ (roundHalfEven (q * 100) : ℚ) := by
    exact_mod_cast roundHalfEven_nonneg (by positivity)
  positivity

theorem round2_le_100 {q : ℚ} (h : q ≤ 100) : round2 q ≤ 100 := by
  unfold round2
  rw [div_le_iff₀ (by norm_num : (0:ℚ) < 100)]
  have : roundHalfEven (q * 100) ≤ (10000 : ℤ) := by
    apply roundHalfEven_le
    push_cast
    linarith
  calc (roundHalfEven (q * 100) : ℚ) ≤ (10000 : ℤ) := by exact_mod_cast this
    _ = 100 * 100 := by norm_num

theorem round2_intCast (n : ℤ) : round2 (n : ℚ) = n := by
  unfold round2
  have : ((n : ℚ) * 100) = ((n * 100 : ℤ) : ℚ) := by push_cast; ring
  rw [this, roundHalfEven_intCast]
  push_cast
  ring

/-- A data url is never the empty string, whatever its payload. -/
theorem dataUrl_ne_empty (x : String) : "data:image/png;base64," ++ x ≠ "" := by
  intro h
  have hlen := congrArg String.length h
  rw [String.length_append] at hlen
  rw [show ("data:image/png;base64," : String).length = 22 from rfl] at hlen
  rw [show ("" : String).length = 0 from rfl] at hlen
  omega

/-! ## Claim theorems -/

/-- Claim C2: for every video record whose view, like and comment counters are
non-negative (with `views = 0` handled by the divisor `max(views, 1)`), the
`ctr_score` field of the `ThumbnailInfo` produced by `_build_thumbnail_info`
lies in the closed interval `[0, 100]`. -/
theorem claim2_ctr_score_bounds (item : VideoItem)
    (_hv : 0 ≤ item.statistics.viewCount.getD 0)
    (hl : 0 ≤ item.statistics.likeCount.getD 0)
    (hc : 0 ≤ item.statistics.commentCount.getD 0) :
    0 ≤ (build_thumbnail_info item).ctr_score ∧ (build_thumbnail_info item).ctr_score ≤ 100 := by
  have hscore : (build_thumbnail_info item).ctr_score
      = round2 (min 100 ((item.statistics.likeCount.getD 0 +
          item.statistics.commentCount.getD 0 * 0.5) /
          max (item.statistics.viewCount.getD 0) 1 * 1200)) := rfl
  have hmax : (0:ℚ) < max (item.statistics.viewCount.getD 0) 1 :=
    lt_of_lt_of_le one_pos (le_max_right _ _)
  have hnum : (0:ℚ) ≤ item.statistics.likeCount.getD 0 +
      item.statistics.commentCount.getD 0 * 0.5 :=
    add_nonneg hl (mul_nonneg hc (by norm_num))
  have hx : (0:ℚ) ≤ (item.statistics.likeCount.getD 0 +
      item.statistics.commentCount.getD 0 * 0.5) /
      max (item.statistics.viewCount.getD 0) 1 * 1200 :=
    mul_nonneg (div_nonneg hnum hmax.le) (by norm_num)
  rw [hscore]
  exact ⟨round2_nonneg (le_min (by norm_num) hx), round2_le_100 (min_le_left _ _)⟩

/-- Witness for C2 at a concrete record with `views = 0`. -/
theorem claim2_witness :
    0 ≤ (build_thumbnail_info claim2Record).ctr_score ∧
      (build_thumbnail_info claim2Record).ctr_score ≤ 100 :=
  claim2_ctr_score_bounds claim2Record (by decide) (by decide) (by decide)

/-- Claim C3: for every video record the computed score equals
`round(min(100, (likes + 0.5 * comments) / max(views, 1) * 1200), 2)` (the
formula exactly as the specification writes it), and the example record with
`viewCount=1000, likeCount=50, commentCount=20` scores exactly 72. -/
theorem claim3_score_formula :
    (∀ item : VideoItem,
        (build_thumbnail_info item).ctr_score
          = ctr_score_spec (item.statistics.viewCount.getD 0)
              (item.statistics.likeCount.getD 0) (item.statistics.commentCount.getD 0)) ∧
      (build_thumbnail_info exampleRecord).ctr_score = 72 := by
  constructor
  · intro item
    have hscore : (build_thumbnail_info item).ctr_score
        = round2 (min 100 ((item.statistics.likeCount.getD 0 +
            item.statistics.commentCount.getD 0 * 0.5) /
            max (item.statistics.viewCount.getD 0) 1 * 1200)) := rfl
    rw [hscore]
    unfold ctr_score_spec
    congr 2
    ring
  · have hscore : (build_thumbnail_info exampleRecord).ctr_score
        = round2 (min 100 ((50 + 20 * 0.5) / max (1000:ℚ) 1 * 1200)) := rfl
    rw [hscore]
    rw [show ((50:ℚ) + 20 * 0.5) / max (1000:ℚ) 1 * 1200 = 72 by
      rw [show max (1000:ℚ) 1 = 1000 from max_eq_left (by norm_num)]
      norm_num]
    rw [show min (100:ℚ) 72 = 72 from min_eq_right (by norm_num)]
    rw [show (72:ℚ) = ((72:ℤ):ℚ) by norm_num, round2_intCast]

/-- Counterexample to claim C5: the reference of the specification's
end-to-end example carries a 23-character identifier (`UC` plus only 21 tail
characters), so the pattern `UC[\w-]{22}` does not match, no handle is
present, and `_resolve_channel_identifier` returns `None` (an unrecognized
reference) instead of the channel id — with or without an API key. -/
theorem claim5_counterexample :
    resolve_channel_identifier none "https://www.youtube.com/channel/UCabcdefghijklmnopqrstu"
        = ResolveOutcome.unrecognized ∧
      resolve_channel_identifier (some "key")
          "https://www.youtube.com/channel/UCabcdefghijklmnopqrstu"
        = ResolveOutcome.unrecognized := by decide

/-- Claim C5 (amended): with a full 24-character identifier
(`UCabcdefghijklmnopqrstuv`), the channel URL resolves directly to that id,
with or without an API key — hence without any network call. -/
theorem claim5_amended_direct :
    resolve_channel_identifier none "https://www.youtube.com/channel/UCabcdefghijklmnopqrstuv"
        = ResolveOutcome.direct "UCabcdefghijklmnopqrstuv" ∧
      resolve_channel_identifier (some "key")
          "https://www.youtube.com/channel/UCabcdefghijklmnopqrstuv"
        = ResolveOutcome.direct "UCabcdefghijklmnopqrstuv" := by decide

/-- Claim C9: a channel whose uploads playlist returns zero items makes
`_get_latest_videos` return the empty list as a successful result, and the
batched statistics call is not issued (the result is the same for every
behaviour of that call). -/
theorem claim9_empty_playlist (statsCall statsCall' : String → HttpResult (List VideoItem)) :
    get_latest_videos (HttpResult.ok []) statsCall = HttpResult.ok [] ∧
      get_latest_videos (HttpResult.ok []) statsCall
        = get_latest_videos (HttpResult.ok []) statsCall' :=
  ⟨rfl, rfl⟩

/-- Witness for C9 at two concrete statistics-call behaviours. -/
theorem claim9_witness :
    get_latest_videos (HttpResult.ok []) (fun _ => HttpResult.httpError) = HttpResult.ok [] ∧
      get_latest_videos (HttpResult.ok []) (fun _ => HttpResult.httpError)
        = get_latest_videos (HttpResult.ok []) (fun _ => HttpResult.ok []) :=
  claim9_empty_playlist (fun _ => HttpResult.httpError) (fun _ => HttpResult.ok [])

/-- Counterexample to claim C4: the reference `"UC@abcdefghijklmnopqrstuv"`
contains an `@handle` token and no substring matching the channel-id pattern,
yet `resolve` without an API key does not fail with a configuration error —
the `startswith("UC") and len >= 24` fallback returns the whole string as a
channel id first. -/
theorem claim4_counterexample :
    (searchHandle "UC@abcdefghijklmnopqrstuv".toList).isSome = true ∧
      (¬ ∃ l₁ m l₂, "UC@abcdefghijklmnopqrstuv".toList = l₁ ++ m ++ l₂ ∧
        isChannelIdToken m = true) ∧
      resolve_channel_identifier none "UC@abcdefghijklmnopqrstuv"
        = ResolveOutcome.direct "UC@abcdefghijklmnopqrstuv" := by
  refine ⟨by decide, ?_, by decide⟩
  rintro ⟨l₁, m, l₂, heq, htok⟩
  have hsome := searchChannelId_complete l₁ m l₂ htok
  rw [← heq,
    show searchChannelId "UC@abcdefghijklmnopqrstuv".toList = none from by decide] at hsome
  simp at hsome

/-- Claim C4 (amended): for every reference from which the handle extractor
yields a non-empty `@handle` token, which contains no substring matching the
channel-id pattern, and which does not trigger the bare-id fallback (start
with `"UC"` at length ≥ 24), `resolve` without a configured API credential
fails with the configuration error — never with a not-found error — and
issues no network call. -/
theorem claim4_amended (apiKey : Option String) (value : String) (h : String)
    (hkey : keyTruthy apiKey = false)
    (hpat : ¬ ∃ l₁ m l₂, value.toList = l₁ ++ m ++ l₂ ∧ isChannelIdToken m = true)
    (hUC : ¬ (pyStartsWith value "UC" = true ∧ 24 ≤ value.length))
    (hh : extract_handle value = some h) (hne : h ≠ "") :
    resolve_channel_identifier apiKey value = ResolveOutcome.configError := by
  have hs : searchChannelId value.toList = none := searchChannelId_eq_none hpat
  have h1 : extract_channel_id value = none := by
    unfold extract_channel_id
    rw [hs]
    exact if_neg hUC
  calc resolve_channel_identifier apiKey value
      = (if h = "" then ResolveOutcome.unrecognized
          else if keyTruthy apiKey then ResolveOutcome.searchByHandle h
          else ResolveOutcome.configError) := by
        unfold resolve_channel_identifier
        rw [h1, hh]
    _ = ResolveOutcome.configError := by
        rw [if_neg hne, hkey]
        simp

/-- Witness for the amended C4 at the concrete reference `"@somehandle"`. -/
theorem claim4_witness :
    resolve_channel_identifier none "@somehandle" = ResolveOutcome.configError :=
  claim4_amended none "@somehandle" "somehandle" rfl
    (by rintro ⟨l₁, m, l₂, heq, htok⟩
        have hsome := searchChannelId_complete l₁ m l₂ htok
        rw [← heq,
          show searchChannelId "@somehandle".toList = none from by decide] at hsome
        simp at hsome)
    (by decide) (by decide) (by decide)

/-- Claim C6: every reference containing a substring matched by the
channel-id pattern `UC[\w-]{22}` resolves directly (for any API-key
configuration, hence with no network call) to the id found by the scan, which
is itself such a substring of the reference. -/
theorem claim6_literal_id (apiKey : Option String) (value : String)
    (hp : ∃ l₁ m l₂, value.toList = l₁ ++ m ++ l₂ ∧ isChannelIdToken m = true) :
    ∃ cid : List Char, searchChannelId value.toList = some cid ∧
      isChannelIdToken cid = true ∧
      (∃ l₁ l₂, value.toList = l₁ ++ cid ++ l₂) ∧
      resolve_channel_identifier apiKey value = ResolveOutcome.direct (String.mk cid) := by
  obtain ⟨l₁, m, l₂, heq, htok⟩ := hp
  have hsome : (searchChannelId value.toList).isSome = true := by
    rw [heq]
    exact searchChannelId_complete l₁ m l₂ htok
  obtain ⟨cid, hcid⟩ := Option.isSome_iff_exists.mp hsome
  obtain ⟨htokc, l₁', l₂', heq'⟩ := searchChannelId_sound hcid
  refine ⟨cid, hcid, htokc, ⟨l₁', l₂', heq'⟩, ?_⟩
  unfold resolve_channel_identifier extract_channel_id
  rw [hcid]

/-- Witness for C6: a reference containing both an `@handle` token and a
literal channel id resolves to the embedded id even with a key configured. -/
theorem claim6_witness :
    ∃ cid : List Char,
      searchChannelId
          "see @creator https://www.youtube.com/channel/UCabcdefghijklmnopqrstuv".toList
        = some cid ∧
      isChannelIdToken cid = true ∧
      (∃ l₁ l₂,
        "see @creator https://www.youtube.com/channel/UCabcdefghijklmnopqrstuv".toList
          = l₁ ++ cid ++ l₂) ∧
      resolve_channel_identifier (some "key")
          "see @creator https://www.youtube.com/channel/UCabcdefghijklmnopqrstuv"
        = ResolveOutcome.direct (String.mk cid) :=
  claim6_literal_id (some "key") _
    ⟨"see @creator https://www.youtube.com/channel/".toList,
      "UCabcdefghijklmnopqrstuv".toList, [], by decide, by decide⟩

/-- Counterexample to claim C10: `"UCabcdefghijklmnopqrstuv!!"` starts with
`"UC"` and has length ≥ 24, but `resolve` returns the leftmost 24-character
pattern match, not the entire string. -/
theorem claim10_counterexample :
    pyStartsWith "UCabcdefghijklmnopqrstuv!!" "UC" = true ∧
      24 ≤ "UCabcdefghijklmnopqrstuv!!".length ∧
      resolve_channel_identifier none "UCabcdefghijklmnopqrstuv!!"
        = ResolveOutcome.direct "UCabcdefghijklmnopqrstuv" ∧
      "UCabcdefghijklmnopqrstuv" ≠ "UCabcdefghijklmnopqrstuv!!" := by decide

/-- Claim C10 (amended): every input that starts with `"UC"`, has length at
least 24 and contains no substring matching the channel-id pattern is
returned verbatim by `resolve` (for any API-key configuration, hence with no
network call), even though it does not itself match the pattern. -/
theorem claim10_amended (apiKey : Option String) (url : String)
    (h1 : pyStartsWith url "UC" = true) (h2 : 24 ≤ url.length)
    (h3 : ¬ ∃ l₁ m l₂, url.toList = l₁ ++ m ++ l₂ ∧ isChannelIdToken m = true) :
    resolve_channel_identifier apiKey url = ResolveOutcome.direct url := by
  have hs : searchChannelId url.toList = none := searchChannelId_eq_none h3
  have hid : extract_channel_id url = some url := by
    unfold extract_channel_id
    rw [hs]
    exact if_pos ⟨h1, h2⟩
  unfold resolve_channel_identifier
  rw [hid]

/-- Witness for the amended C10: `"UC"` followed by 22 dots (dots are outside
the pattern's character class) is returned verbatim. -/
theorem claim10_witness :
    resolve_channel_identifier none "UC......................"
      = ResolveOutcome.direct "UC......................" :=
  claim10_amended none "UC......................" (by decide) (by decide)
    (by rintro ⟨l₁, m, l₂, heq, htok⟩
        have hsome := searchChannelId_complete l₁ m l₂ htok
        rw [← heq,
          show searchChannelId "UC......................".toList = none from by decide] at hsome
        simp at hsome)

/-- Counterexample to claim C7: a record whose only present tier carries the
empty url string yields `thumbnail_url = ""` although a tier exists, so the
empty string does not occur only when no tier exists at all. -/
theorem claim7_counterexample :
    (build_thumbnail_info claim7EmptyUrlRecord).thumbnail_url = "" ∧
      claim7EmptyUrlRecord.snippet.thumbnails.maxres = some "" := by
  exact ⟨rfl, rfl⟩

/-- Claim C7 (amended): for every video record whose present thumbnail tiers
all carry non-empty urls, `_build_thumbnail_info` selects `thumbnail_url` by
the fixed preference order maxres, standard, high, default — the first
present tier wins and absent tiers are skipped without error — and
`thumbnail_url` is the empty string exactly when no tier exists at all. -/
theorem claim7_tier_selection (item : VideoItem)
    (hm : ∀ u, item.snippet.thumbnails.maxres = some u → u ≠ "")
    (hs : ∀ u, item.snippet.thumbnails.standard = some u → u ≠ "")
    (hh : ∀ u, item.snippet.thumbnails.high = some u → u ≠ "")
    (hd : ∀ u, item.snippet.thumbnails.default = some u → u ≠ "") :
    (∀ u, item.snippet.thumbnails.maxres = some u →
        (build_thumbnail_info item).thumbnail_url = u) ∧
      (item.snippet.thumbnails.maxres = none →
        ∀ u, item.snippet.thumbnails.standard = some u →
          (build_thumbnail_info item).thumbnail_url = u) ∧
      (item.snippet.thumbnails.maxres = none → item.snippet.thumbnails.standard = none →
        ∀ u, item.snippet.thumbnails.high = some u →
          (build_thumbnail_info item).thumbnail_url = u) ∧
      (item.snippet.thumbnails.maxres = none → item.snippet.thumbnails.standard = none →
        item.snippet.thumbnails.high = none →
        ∀ u, item.snippet.thumbnails.default = some u →
          (build_thumbnail_info item).thumbnail_url = u) ∧
      ((build_thumbnail_info item).thumbnail_url = "" ↔
        item.snippet.thumbnails.maxres = none ∧ item.snippet.thumbnails.standard = none ∧
          item.snippet.thumbnails.high = none ∧ item.snippet.thumbnails.default = none) := by
  have hurl : (build_thumbnail_info item).thumbnail_url
      = (best_thumb item.snippet.thumbnails).getD "" := rfl
  rcases hmax : item.snippet.thumbnails.maxres with _ | um
  · rcases hstd : item.snippet.thumbnails.standard with _ | us
    · rcases hhigh : item.snippet.thumbnails.high with _ | uh
      · rcases hdef : item.snippet.thumbnails.default with _ | ud
        · have hb : (build_thumbnail_info item).thumbnail_url = "" := by
            rw [hurl]
            unfold best_thumb
            rw [hmax, hstd, hhigh, hdef]
            rfl
          refine ⟨?_, ?_, ?_, ?_, ?_⟩ <;> simp [hmax, hstd, hhigh, hdef, hb]
        · have hb : (build_thumbnail_info item).thumbnail_url = ud := by
            rw [hurl]
            unfold best_thumb
            rw [hmax, hstd, hhigh, hdef]
            rfl
          refine ⟨?_, ?_, ?_, ?_, ?_⟩ <;>
            simp [hmax, hstd, hhigh, hdef, hb, hd ud hdef]
      · have hb : (build_thumbnail_info item).thumbnail_url = uh := by
          rw [hurl]
          unfold best_thumb
          rw [hmax, hstd, hhigh]
          rfl
        refine ⟨?_, ?_, ?_, ?_, ?_⟩ <;>
          simp [hmax, hstd, hhigh, hb, hh uh hhigh]
    · have hb : (build_thumbnail_info item).thumbnail_url = us := by
        rw [hurl]
        unfold best_thumb
        rw [hmax, hstd]
        rfl
      refine ⟨?_, ?_, ?_, ?_, ?_⟩ <;> simp [hmax, hstd, hb, hs us hstd]
  · have hb : (build_thumbnail_info item).thumbnail_url = um := by
      rw [hurl]
      unfold best_thumb
      rw [hmax]
      rfl
    refine ⟨?_, ?_, ?_, ?_, ?_⟩ <;> simp [hmax, hb, hm um hmax]

/-- Witness for the amended C7 at a record offering only the `high` tier. -/
theorem claim7_witness :
    (∀ u, claim7Record.snippet.thumbnails.maxres = some u →
        (build_thumbnail_info claim7Record).thumbnail_url = u) ∧
      (claim7Record.snippet.thumbnails.maxres = none →
        ∀ u, claim7Record.snippet.thumbnails.standard = some u →
          (build_thumbnail_info claim7Record).thumbnail_url = u) ∧
      (claim7Record.snippet.thumbnails.maxres = none →
        claim7Record.snippet.thumbnails.standard = none →
        ∀ u, claim7Record.snippet.thumbnails.high = some u →
          (build_thumbnail_info claim7Record).thumbnail_url = u) ∧
      (claim7Record.snippet.thumbnails.maxres = none →
        claim7Record.snippet.thumbnails.standard = none →
        claim7Record.snippet.thumbnails.high = none →
        ∀ u, claim7Record.snippet.thumbnails.default = some u →
          (build_thumbnail_info claim7Record).thumbnail_url = u) ∧
      ((build_thumbnail_info claim7Record).thumbnail_url = "" ↔
        claim7Record.snippet.thumbnails.maxres = none ∧
          claim7Record.snippet.thumbnails.standard = none ∧
          claim7Record.snippet.thumbnails.high = none ∧
          claim7Record.snippet.thumbnails.default = none) :=
  claim7_tier_selection claim7Record
    (by intro u hu; cases hu) (by intro u hu; cases hu)
    (by intro u hu; injection hu with hu'; subst hu'; decide)
    (by intro u hu; cases hu)

/-- Counterexample to claim C1: when a generation credential is configured
and the library is importable, an error raised by the text-generation call
propagates out of `propose_new_thumbnail` instead of degrading to a
fallback. -/
theorem claim1_counterexample :
    propose_new_thumbnail (some "key") true (fun _ => []) TextBehavior.raises
        (ImageBehavior.returns []) "Заголовок" "Описание" none = Except.error () := rfl

/-- Claim C1 (amended): for every title, description and optional
original-thumbnail input, and for every behaviour of the generation service
in which the text-generation call does not raise, `propose_new_thumbnail`
returns a structured result; in particular every image-generation failure
(raising, or an empty result) is recovered, and without a configured
credential no error is possible at all. -/
theorem claim1_amended (apiKey : Option String) (genaiAvailable : Bool)
    (render : String → List Nat) (textGen : TextBehavior) (imageGen : ImageBehavior)
    (title description : String) (original : Option String)
    (h : (keyTruthy apiKey && genaiAvailable) = true → textGen ≠ TextBehavior.raises) :
    ∃ r, propose_new_thumbnail apiKey genaiAvailable render textGen imageGen
        title description original = Except.ok r := by
  cases hk : keyTruthy apiKey && genaiAvailable with
  | false =>
      unfold propose_new_thumbnail
      rw [hk]
      simp
  | true =>
      cases htg : textGen with
      | raises => exact absurd htg (h hk)
      | returns t =>
          unfold propose_new_thumbnail
          rw [hk]
          simp

/-- Witness for the amended C1: credential configured, text generation
succeeds, image generation raises — still a structured result. -/
theorem claim1_witness :
    ∃ r, propose_new_thumbnail (some "key") true (fun _ => [])
        (TextBehavior.returns "идея") ImageBehavior.raises "Заголовок" "Описание" none
      = Except.ok r :=
  claim1_amended (some "key") true (fun _ => []) (TextBehavior.returns "идея")
    ImageBehavior.raises "Заголовок" "Описание" none
    (fun _ h => TextBehavior.noConfusion h)

/-- Claim C8: for every title and description, `propose_new_thumbnail` with no
configured generation credential returns the fixed instructional idea text
and the non-empty placeholder image, and makes zero outbound generation calls
(the result is the same for every behaviour of both generation calls). -/
theorem claim8_no_credential (apiKey : Option String) (genaiAvailable : Bool)
    (render : String → List Nat) (textGen textGen' : TextBehavior)
    (imageGen imageGen' : ImageBehavior) (title description : String)
    (original : Option String) (hkey : apiKey = none) :
    ∃ r, propose_new_thumbnail apiKey genaiAvailable render textGen imageGen
          title description original = Except.ok r ∧
      r.idea = "Используйте GEMINI_API_KEY, чтобы получить идеи на основе контента." ∧
      r.image_data_url = some (placeholder_image render title) ∧
      placeholder_image render title ≠ "" ∧
      propose_new_thumbnail apiKey genaiAvailable render textGen imageGen
          title description original
        = propose_new_thumbnail apiKey genaiAvailable render textGen' imageGen'
            title description original := by
  subst hkey
  exact ⟨_, rfl, rfl, rfl, dataUrl_ne_empty _, rfl⟩

/-- Witness for C8 at concrete inputs and two different service behaviours. -/
theorem claim8_witness :
    ∃ r, propose_new_thumbnail none true (fun _ => [0])
          (TextBehavior.returns "x") (ImageBehavior.returns [[1]]) "Заголовок" "Описание" none
        = Except.ok r ∧
      r.idea = "Используйте GEMINI_API_KEY, чтобы получить идеи на основе контента." ∧
      r.image_data_url = some (placeholder_image (fun _ => [0]) "Заголовок") ∧
      placeholder_image (fun _ => [0]) "Заголовок" ≠ "" ∧
      propose_new_thumbnail none true (fun _ => [0])
          (TextBehavior.returns "x") (ImageBehavior.returns [[1]]) "Заголовок" "Описание" none
        = propose_new_thumbnail none true (fun _ => [0])
            TextBehavior.raises ImageBehavior.raises "Заголовок" "Описание" none :=
  claim8_no_credential none true (fun _ => [0]) (TextBehavior.returns "x")
    TextBehavior.raises (ImageBehavior.returns [[1]]) ImageBehavior.raises
    "Заголовок" "Описание" none rfl

end App
